import Mathlib

/-!
Shallow embedding of mediasoup's worker `RTC::PipeTransport`
(src/worker/src/RTC/PipeTransport.cpp).

External collaborators (IP utilities, libuv address resolution, SRTP
sessions, packet classifiers and parsers, the UDP socket) are modelled as
a bundle of oracle functions (`Ext`); the side effects performed through
the base `RTC::Transport` class and the logger are modelled as an explicit
effect trace (`Effect`).
-/

namespace RTCPipe

/-- Error kinds thrown through MediaSoupErrors.hpp: `MS_THROW_TYPE_ERROR`
(`typeError`) and `MS_THROW_ERROR` (`error`). -/
inductive MsError where
  | typeError (msg : String)
  | error (msg : String)
deriving DecidableEq

/-- The subset of JSON values that PipeTransport's construction and request
data distinguish: strings, booleans, integers, and anything else. -/
inductive JPrim where
  | jstr (s : String)
  | jbool (b : Bool)
  | jint (n : Int)
  | jother
deriving DecidableEq

/-- Address family as returned by `Utils::IP::GetFamily`. -/
inductive IpFamily where
  | inet
  | inet6
  | other
deriving DecidableEq

/-- A resolved network address (ip, port), as stored in `remoteAddrStorage`. -/
structure SockAddr where
  ip : String
  port : Nat
deriving DecidableEq

/-- Direction of an `RTC::SrtpSession` (`Type::OUTBOUND` / `Type::INBOUND`). -/
inductive SrtpDir where
  | outbound
  | inbound
deriving DecidableEq

/-- An `RTC::SrtpSession` as far as PipeTransport observes it: the direction
and the 30-byte master key it was constructed from. -/
structure SrtpSession where
  dir : SrtpDir
  key : String
deriving DecidableEq

/-- A parsed RTP packet, as far as PipeTransport observes it (fields used in
the decrypt-failure diagnostic log). -/
structure RtpPacket where
  ssrc : Nat
  payloadType : Nat
  seq : Nat
deriving DecidableEq

/-- A parsed RTCP (possibly compound) packet; forwarded as one unit. -/
structure RtcpPacket where
  raw : List Nat
deriving DecidableEq

/-- Modelled from the spec: `RTC::TransportTuple` (its source is not under
src/): the local UDP socket address with an optional announced-ip override
("" means unset), plus the fixed remote address; the protocol of a
PipeTransport tuple is always "udp". -/
structure TransportTuple where
  localIp : String
  localPort : Nat
  localAnnouncedIp : String
  remote : SockAddr
deriving DecidableEq

/-- The tuple description returned to the caller (`TransportTuple::FillJson`). -/
structure TupleDesc where
  localIp : String
  localPort : Nat
  protocol : String
  remoteIp : String
  remotePort : Nat
deriving DecidableEq

/-- Modelled from the spec: `TransportTuple::FillJson` reports the announced
local ip when set, the socket's ip otherwise, the local and remote ports and
the protocol tag "udp". -/
def TransportTuple.fillJson (tu : TransportTuple) : TupleDesc :=
  { localIp := if tu.localAnnouncedIp = "" then tu.localIp else tu.localAnnouncedIp
    localPort := tu.localPort
    protocol := "udp"
    remoteIp := tu.remote.ip
    remotePort := tu.remote.port }

/-- Modelled from the spec: `TransportTuple::Compare` is exact equality of the
remote (ip, port) pair; the protocol is "udp" on both sides here. -/
def TransportTuple.sameSource (tu : TransportTuple) (src : SockAddr) : Bool :=
  tu.remote == src

/-- The PipeTransport state: listen configuration, the bound socket's local
address, the `rtx` flag, the local SRTP key ("" when SRTP is disabled), and
the three at-most-once slots `tuple`, `srtpSendSession`, `srtpRecvSession`. -/
structure Transport where
  listenIpIp : String
  announcedIp : String
  socketLocalIp : String
  socketLocalPort : Nat
  rtx : Bool
  srtpKey : String
  tuple : Option TransportTuple
  srtpSendSession : Option SrtpSession
  srtpRecvSession : Option SrtpSession
deriving DecidableEq

/-- `PipeTransport::HasSrtp`: the local SRTP key string is non-empty. -/
def Transport.hasSrtp (t : Transport) : Bool :=
  !(t.srtpKey == "")

/-- `PipeTransport::IsConnected`: the tuple slot is filled. -/
def Transport.isConnected (t : Transport) : Bool :=
  t.tuple.isSome

/-- Oracle bundle for the external collaborators. `normalizeIp` is
`Utils::IP::NormalizeIp` (`none` = it throws); `getFamily` is
`Utils::IP::GetFamily`; `uvIp4Addr`/`uvIp6Addr` are the libuv resolvers
(`none` = a non-zero error code); `srtpNewFail dir key` is `some msg` when
the `RTC::SrtpSession` constructor for that direction and key throws;
`randomKey n` is `Utils::Crypto::GetRandomString(n)`; `bindSocket ip` is the
`RTC::UdpSocket` constructor, yielding the bound local (ip, port);
the rest are the packet classifiers, parsers and SRTP transforms, where the
`Option (List Nat)` transforms return the rewritten buffer or `none` on
failure. -/
structure Ext where
  normalizeIp : String → Option String
  getFamily : String → IpFamily
  uvIp4Addr : String → Nat → Option SockAddr
  uvIp6Addr : String → Nat → Option SockAddr
  srtpNewFail : SrtpDir → String → Option String
  randomKey : Nat → String
  bindSocket : String → Option (String × Nat)
  isRtcp : List Nat → Bool
  isRtp : List Nat → Bool
  isSctp : List Nat → Bool
  decryptSrtp : List Nat → Option (List Nat)
  decryptSrtcp : List Nat → Option (List Nat)
  parseRtp : List Nat → Option RtpPacket
  parseRtcp : List Nat → Option RtcpPacket
  encryptRtp : List Nat → Option (List Nat)
  encryptRtcp : List Nat → Option (List Nat)

/-- `SrtpMasterLength`: the fixed SRTP master key length. -/
def srtpMasterLength : Nat := 30

/-- The payload of the `listenIp` construction field when it is an object. -/
structure ListenIpObj where
  ip : Option JPrim
  announcedIp : Option JPrim
deriving DecidableEq

/-- The `listenIp` construction field: a JSON object or something else. -/
inductive JListenIp where
  | jobj (o : ListenIpObj)
  | jnonobj
deriving DecidableEq

/-- The construction-time `data` fields that the PipeTransport constructor
reads. -/
structure ConstructData where
  listenIp : Option JListenIp
  enableRtx : Option JPrim
  enableSrtp : Option JPrim
deriving DecidableEq

/-- Outcome of the PipeTransport constructor: the object, or a thrown error
(in which case no object is created and the socket is released). -/
inductive CtorResult where
  | ok (t : Transport)
  | err (e : MsError)
deriving DecidableEq

/-- The `listenIp.announcedIp` step of the constructor: absent means "",
a string is taken verbatim, anything else throws. -/
def pickAnnounced : Option JPrim → Except MsError String
  | none => .ok ""
  | some (.jstr s) => .ok s
  | some _ => .error (.typeError "wrong listenIp.announcedIp (not an string")

/-- The `enableRtx` step of the constructor: the option is taken only when it
is present and boolean; otherwise the member keeps its default `false`. -/
def rtxOf : Option JPrim → Bool
  | some (.jbool b) => b
  | _ => false

/-- The `enableSrtp` step of the constructor: a 30-byte random local key is
generated only when the option is present, boolean and `true`; otherwise the
key member keeps its default "". -/
def srtpKeyOf (ext : Ext) : Option JPrim → String
  | some (.jbool true) => ext.randomKey srtpMasterLength
  | _ => ""

/-- `PipeTransport::PipeTransport`: validates `listenIp`, normalizes the ip,
reads `announcedIp`, takes `enableRtx`/`enableSrtp` only when present AND
boolean, generates a 30-byte random local key iff `enableSrtp` is the boolean
`true`, then binds the UDP socket (failure is atomic: the error propagates
and no object exists). -/
def pipeTransportNew (ext : Ext) (d : ConstructData) : CtorResult :=
  match d.listenIp with
  | none => .err (.typeError "missing listenIp")
  | some .jnonobj => .err (.typeError "wrong listenIp (not an object)")
  | some (.jobj o) =>
    match o.ip with
    | none => .err (.typeError "missing listenIp.ip")
    | some (.jstr ipRaw) =>
      match ext.normalizeIp ipRaw with
      | none => .err (.typeError "invalid listenIp.ip")
      | some ip =>
        match pickAnnounced o.announcedIp with
        | .error e => .err e
        | .ok announced =>
          let rtx : Bool := rtxOf d.enableRtx
          let key : String := srtpKeyOf ext d.enableSrtp
          match ext.bindSocket ip with
          | none => .err (.error "error binding UDP socket")
          | some (lip, lport) =>
            .ok { listenIpIp := ip
                  announcedIp := announced
                  socketLocalIp := lip
                  socketLocalPort := lport
                  rtx := rtx
                  srtpKey := key
                  tuple := none
                  srtpSendSession := none
                  srtpRecvSession := none }
    | some _ => .err (.typeError "wrong listenIp.ip (not an string)")

/-- The connect request's `data` fields. -/
structure ConnectData where
  ip : Option JPrim
  port : Option JPrim
  srtpKey : Option JPrim
deriving DecidableEq

/-- Modelled from the spec: `Utils::Json::IsPositiveInteger` — the value is
an integer JSON number that is not negative. -/
def isPositiveInteger : JPrim → Bool
  | .jint n => decide (0 ≤ n)
  | _ => false

/-- Outcome of the body of the `TRANSPORT_CONNECT` try block. -/
inductive TryResult where
  | ok (t : Transport) (d : TupleDesc)
  | err (e : MsError)
  | fatal (msg : String)
deriving DecidableEq

/-- Outcome of a `TRANSPORT_CONNECT` request: success with the new state and
the returned tuple description; a thrown recoverable error together with the
state after the catch-block rollback; or a process-fatal `MS_ABORT`. -/
inductive ConnectResult where
  | ok (t : Transport) (d : TupleDesc)
  | err (e : MsError) (t : Transport)
  | fatal (msg : String)
deriving DecidableEq

/-- The catch-block of `TRANSPORT_CONNECT`: delete and null the send session,
the recv session and the tuple. -/
def rollback (t : Transport) : Transport :=
  { t with srtpSendSession := none, srtpRecvSession := none, tuple := none }

/-- The srtpKey validation and SRTP-session provisioning steps of connect:
a present `srtpKey` with SRTP disabled locally, or an absent/non-string one
with SRTP enabled, or a wrong length, is a TypeError; with SRTP enabled both
sessions are built (outbound from the local key, inbound from the supplied
remote key) and a constructor failure of either is an Error; with SRTP
disabled and no key supplied nothing is provisioned (`.ok none`). -/
def setupSrtpSessions (ext : Ext) (t : Transport) (k : Option JPrim) :
    Except MsError (Option (SrtpSession × SrtpSession)) :=
  if !t.hasSrtp && k.isSome then
    .error (.typeError "invalid srtpKey (SRTP not enabled locally)")
  else
    match k, t.hasSrtp with
    | some (.jstr remoteKey), true =>
      if remoteKey.length ≠ srtpMasterLength then
        .error (.typeError "invalid srtpKey length")
      else
        match ext.srtpNewFail .outbound t.srtpKey with
        | some m => .error (.error ("error creating SRTP sending session: " ++ m))
        | none =>
          match ext.srtpNewFail .inbound remoteKey with
          | some m => .error (.error ("error creating SRTP receiving session: " ++ m))
          | none => .ok (some (⟨.outbound, t.srtpKey⟩, ⟨.inbound, remoteKey⟩))
    | _, true => .error (.typeError "missing srtpKey (SRTP enabled locally)")
    | _, false => .ok none

/-- Outcome of resolving the remote address into `remoteAddrStorage`. -/
inductive ResolveResult where
  | ok (addr : SockAddr)
  | invalid (msg : String)
  | fatal (msg : String)
deriving DecidableEq

/-- The address-family switch of connect: IPv4 and IPv6 go through the libuv
resolver whose failure is `MS_ABORT` (process-fatal); any other family is the
`default:` branch, a thrown (recoverable) `MS_THROW_ERROR`. -/
def resolveRemoteAddr (ext : Ext) (ip : String) (port : Nat) : ResolveResult :=
  match ext.getFamily ip with
  | .inet =>
    match ext.uvIp4Addr ip port with
    | some addr => .ok addr
    | none => .fatal "uv_ip4_addr() failed"
  | .inet6 =>
    match ext.uvIp6Addr ip port with
    | some addr => .ok addr
    | none => .fatal "uv_ip6_addr() failed"
  | .other => .invalid ("invalid IP " ++ ip)

/-- The body of the `TRANSPORT_CONNECT` try block: validate and normalize
`ip`, validate `port`, validate `srtpKey` and provision the SRTP sessions,
resolve the remote address, build the tuple (applying the announced ip) and
return the new state and tuple description.
The source declares `uint16_t port{ 0u }` and validates the request's `port`
field but never assigns the field's value to the variable, so address
resolution always receives port 0. -/
def connectTry (ext : Ext) (t : Transport) (req : ConnectData) : TryResult :=
  match req.ip with
  | none => .err (.typeError "missing ip")
  | some (.jstr ipRaw) =>
    match ext.normalizeIp ipRaw with
    | none => .err (.typeError "invalid ip")
    | some ip =>
      match req.port with
      | none => .err (.typeError "missing port")
      | some p =>
        if !isPositiveInteger p then .err (.typeError "missing port")
        else
          match setupSrtpSessions ext t req.srtpKey with
          | .error e => .err e
          | .ok pairOpt =>
            match resolveRemoteAddr ext ip 0 with
            | .fatal m => .fatal m
            | .invalid m => .err (.error m)
            | .ok addr =>
              let tu : TransportTuple :=
                { localIp := t.socketLocalIp
                  localPort := t.socketLocalPort
                  localAnnouncedIp := t.announcedIp
                  remote := addr }
              let t2 : Transport :=
                match pairOpt with
                | none => { t with tuple := some tu }
                | some (s, r) =>
                  { t with tuple := some tu
                           srtpSendSession := some s
                           srtpRecvSession := some r }
              .ok t2 tu.fillJson
  | some _ => .err (.typeError "missing ip")

/-- `PipeTransport::HandleRequest` for `TRANSPORT_CONNECT`: reject a second
call before the try block (so without any rollback); otherwise run the body
and, when it throws a recoverable error, null the two sessions and the tuple
before re-throwing. -/
def connect (ext : Ext) (t : Transport) (req : ConnectData) : ConnectResult :=
  if t.tuple.isSome then
    .err (.error "connect() already called") t
  else
    match connectTry ext t req with
    | .ok t2 d => .ok t2 d
    | .err e => .err e (rollback t)
    | .fatal m => .fatal m

/-- Observable side effects performed through the base `RTC::Transport`, the
tuple, the SRTP sessions, the parsers and the logger, in program order. -/
inductive Effect where
  | dataReceived (n : Nat)
  | dataSent (n : Nat)
  | recvRtp (p : RtpPacket)
  | recvRtcp (p : RtcpPacket)
  | recvSctp (d : List Nat)
  | decryptSrtp (d : List Nat)
  | decryptSrtcp (d : List Nat)
  | encryptRtp (d : List Nat)
  | encryptRtcp (d : List Nat)
  | parseRtp (d : List Nat)
  | parseRtcp (d : List Nat)
  | tupleSend (d : List Nat)
  | sendCallback (ok : Bool)
  | warn (m : String)
  | debug (m : String)
deriving DecidableEq

/-- `PipeTransport::SendRtpPacket` (the buffer is the packet's data; `hasCb`
says whether a completion callback was supplied): disconnected → callback
fires with `false` and nothing else happens; SRTP encryption failure →
likewise; otherwise the (possibly rewritten) buffer is handed to the tuple
and `DataSent` is increased by its length. -/
def sendRtpPacket (ext : Ext) (t : Transport) (data : List Nat) (hasCb : Bool) :
    List Effect :=
  if !t.isConnected then
    if hasCb then [.sendCallback false] else []
  else if t.hasSrtp then
    match ext.encryptRtp data with
    | none => .encryptRtp data :: (if hasCb then [.sendCallback false] else [])
    | some d2 => [.encryptRtp data, .tupleSend d2, .dataSent d2.length]
  else
    [.tupleSend data, .dataSent data.length]

/-- `PipeTransport::SendRtcpPacket`: disconnected or SRTCP encryption failure
→ silent no-op; otherwise hand off and account. -/
def sendRtcpPacket (ext : Ext) (t : Transport) (data : List Nat) : List Effect :=
  if !t.isConnected then
    []
  else if t.hasSrtp then
    match ext.encryptRtcp data with
    | none => [.encryptRtcp data]
    | some d2 => [.encryptRtcp data, .tupleSend d2, .dataSent d2.length]
  else
    [.tupleSend data, .dataSent data.length]

/-- `PipeTransport::SendRtcpCompoundPacket`: identical policy to
`SendRtcpPacket`. -/
def sendRtcpCompoundPacket (ext : Ext) (t : Transport) (data : List Nat) :
    List Effect :=
  if !t.isConnected then
    []
  else if t.hasSrtp then
    match ext.encryptRtcp data with
    | none => [.encryptRtcp data]
    | some d2 => [.encryptRtcp data, .tupleSend d2, .dataSent d2.length]
  else
    [.tupleSend data, .dataSent data.length]

/-- `PipeTransport::SendSctpData`: disconnected → silent no-op; otherwise the
raw buffer is handed to the tuple unchanged (no SRTP session is consulted)
and `DataSent` is increased by its length. -/
def sendSctpData (t : Transport) (data : List Nat) : List Effect :=
  if !t.isConnected then
    []
  else
    [.tupleSend data, .dataSent data.length]

/-- `PipeTransport::OnRtpDataReceived`: drop silently while disconnected;
drop with a debug log when the source address mismatches the tuple; with
SRTP, decrypt (a failure is logged, with a best-effort parse only to enrich
the diagnostic) and then parse the decrypted buffer; without SRTP parse the
raw buffer; a parse failure is logged and dropped; a parsed packet is handed
to `Transport::ReceiveRtpPacket`. -/
def onRtpDataReceived (ext : Ext) (t : Transport) (src : SockAddr)
    (data : List Nat) : List Effect :=
  match t.tuple with
  | none => []
  | some tu =>
    if tu.sameSource src = false then
      [.debug "ignoring RTP packet from unknown IP:port"]
    else if t.hasSrtp then
      match ext.decryptSrtp data with
      | none =>
        .decryptSrtp data :: .parseRtp data ::
          (match ext.parseRtp data with
           | none => [.warn "DecryptSrtp() failed due to an invalid RTP packet"]
           | some _ => [.warn "DecryptSrtp() failed"])
      | some d2 =>
        .decryptSrtp data :: .parseRtp d2 ::
          (match ext.parseRtp d2 with
           | none => [.warn "received data is not a valid RTP packet"]
           | some p => [.recvRtp p])
    else
      .parseRtp data ::
        (match ext.parseRtp data with
         | none => [.warn "received data is not a valid RTP packet"]
         | some p => [.recvRtp p])

/-- `PipeTransport::OnRtcpDataReceived`: like the RTP path but a decryption
failure returns silently, and the parsed (possibly compound) packet is handed
to `Transport::ReceiveRtcpPacket` as one unit. -/
def onRtcpDataReceived (ext : Ext) (t : Transport) (src : SockAddr)
    (data : List Nat) : List Effect :=
  match t.tuple with
  | none => []
  | some tu =>
    if tu.sameSource src = false then
      [.debug "ignoring RTCP packet from unknown IP:port"]
    else if t.hasSrtp then
      match ext.decryptSrtcp data with
      | none => [.decryptSrtcp data]
      | some d2 =>
        .decryptSrtcp data :: .parseRtcp d2 ::
          (match ext.parseRtcp d2 with
           | none => [.warn "received data is not a valid RTCP compound or single packet"]
           | some p => [.recvRtcp p])
    else
      .parseRtcp data ::
        (match ext.parseRtcp data with
         | none => [.warn "received data is not a valid RTCP compound or single packet"]
         | some p => [.recvRtcp p])

/-- `PipeTransport::OnSctpDataReceived`: drop silently while disconnected;
drop with a debug log on source mismatch; otherwise forward the raw buffer
unchanged to `Transport::ReceiveSctpData` (no decryption). -/
def onSctpDataReceived (t : Transport) (src : SockAddr) (data : List Nat) :
    List Effect :=
  match t.tuple with
  | none => []
  | some tu =>
    if tu.sameSource src = false then
      [.debug "ignoring SCTP packet from unknown IP:port"]
    else
      [.recvSctp data]

/-- `PipeTransport::OnPacketReceived`: always report `DataReceived` first,
then classify in the fixed order RTCP, RTP, SCTP — the first match wins —
and warn-and-drop anything unmatched. -/
def onPacketReceived (ext : Ext) (t : Transport) (src : SockAddr)
    (data : List Nat) : List Effect :=
  .dataReceived data.length ::
    (if ext.isRtcp data then onRtcpDataReceived ext t src data
     else if ext.isRtp data then onRtpDataReceived ext t src data
     else if ext.isSctp data then onSctpDataReceived t src data
     else [.warn "ignoring received packet of unknown type"])

/-! Concrete fixtures for witnesses and counterexamples. -/

/-- A standard oracle bundle for concrete evaluations: ip normalization is
the identity, every address is IPv4, the libuv resolver succeeds and records
the (ip, port) it was given, SRTP session construction succeeds, the
classifiers reject everything and the transforms are the identity. -/
def extStd : Ext :=
  { normalizeIp := fun s => some s
    getFamily := fun _ => .inet
    uvIp4Addr := fun s p => some { ip := s, port := p }
    uvIp6Addr := fun s p => some { ip := s, port := p }
    srtpNewFail := fun _ _ => none
    randomKey := fun n => String.mk (List.replicate n 'k')
    bindSocket := fun ip => some (ip, 40000)
    isRtcp := fun _ => false
    isRtp := fun _ => false
    isSctp := fun _ => false
    decryptSrtp := fun d => some d
    decryptSrtcp := fun d => some d
    parseRtp := fun _ => none
    parseRtcp := fun _ => none
    encryptRtp := fun d => some d
    encryptRtcp := fun d => some d }

/-- A 30-byte local SRTP key. -/
def keyK : String := String.mk (List.replicate srtpMasterLength 'k')

/-- A 30-byte remote SRTP key (the spec scenario's 30 bytes `X`). -/
def keyX : String := String.mk (List.replicate srtpMasterLength 'X')

/-- A freshly constructed, SRTP-enabled, unconnected transport bound on
127.0.0.1:40000. -/
def t0 : Transport :=
  { listenIpIp := "127.0.0.1"
    announcedIp := ""
    socketLocalIp := "127.0.0.1"
    socketLocalPort := 40000
    rtx := false
    srtpKey := keyK
    tuple := none
    srtpSendSession := none
    srtpRecvSession := none }

/-- The spec scenario's connect request: ip 127.0.0.1, port 5004, a 30-byte
`X` key. -/
def req5004 : ConnectData :=
  { ip := some (.jstr "127.0.0.1")
    port := some (.jint 5004)
    srtpKey := some (.jstr keyX) }

/-- The tuple the code actually installs for `req5004`: remote port 0. -/
def tuStd : TransportTuple :=
  { localIp := "127.0.0.1"
    localPort := 40000
    localAnnouncedIp := ""
    remote := { ip := "127.0.0.1", port := 0 } }

/-- `t0` after the connect of `req5004` succeeded. -/
def tConn : Transport :=
  { t0 with
    tuple := some tuStd
    srtpSendSession := some ⟨.outbound, keyK⟩
    srtpRecvSession := some ⟨.inbound, keyX⟩ }

/-- A source address that differs from the configured remote address. -/
def srcOther : SockAddr := { ip := "10.0.0.9", port := 7777 }

/-- An oracle bundle whose IPv4 resolver always fails. -/
def extUvFail : Ext :=
  { extStd with uvIp4Addr := fun _ _ => none }

/-- The tuple that a connect through `extStd` to "127.0.0.1" installs on a
transport `t` (with the source's port-0 resolution). -/
def stdTuple (t : Transport) : TransportTuple :=
  { localIp := t.socketLocalIp
    localPort := t.socketLocalPort
    localAnnouncedIp := t.announcedIp
    remote := { ip := "127.0.0.1", port := 0 } }

/-- The tuple description of a successful connect extracted from the result. -/
def ConnectResult.respOf : ConnectResult → Option TupleDesc
  | .ok _ d => some d
  | _ => none

/-- C1: the spec's connect scenario (ip 127.0.0.1, port 5004, 30-byte key)
should return and install remote port 5004; the code validates the request's
`port` field but never assigns it to the local `port` variable (declared
`uint16_t port{ 0u }`), so the successful connect returns and installs a
tuple whose remote port is 0, not the requested 5004. -/
theorem connect_remote_port_not_requested :
    (connect extStd t0 req5004).respOf.map TupleDesc.remotePort = some 0 ∧
    ¬ (connect extStd t0 req5004).respOf.map TupleDesc.remotePort = some 5004 ∧
    connect extStd t0 req5004 =
      .ok tConn
        { localIp := "127.0.0.1", localPort := 40000, protocol := "udp",
          remoteIp := "127.0.0.1", remotePort := 0 } := by
  refine ⟨by decide, by decide, by decide⟩

/-- C3: a connect call on a transport whose tuple is already installed fails
with the "connect() already called" Error before the try block, leaving the
whole transport state (tuple, sessions and everything else) unchanged. -/
theorem connect_already_connected (ext : Ext) (t : Transport)
    (req : ConnectData) (tu : TransportTuple) (h : t.tuple = some tu) :
    connect ext t req = .err (.error "connect() already called") t := by
  simp [connect, h]

/-- C3 witness: a second connect on the connected `tConn` fails with the
StateError and returns the state unchanged. -/
theorem connect_already_connected_witness :
    connect extStd tConn req5004 = .err (.error "connect() already called") tConn :=
  connect_already_connected extStd tConn req5004 tuStd rfl

/-- C5: every received datagram first reports its length to the
bytes-received counter, regardless of connection state; classification then
tests RTCP, then RTP, then SCTP, the first match selecting the handler, and
a datagram matching none of the three produces only a diagnostic warning
after the initial byte count — no forwarding, no further counters. -/
theorem on_packet_received_classification (ext : Ext) (t : Transport)
    (src : SockAddr) (data : List Nat) :
    (∃ rest, onPacketReceived ext t src data = .dataReceived data.length :: rest) ∧
    (ext.isRtcp data = true →
      onPacketReceived ext t src data =
        .dataReceived data.length :: onRtcpDataReceived ext t src data) ∧
    (ext.isRtcp data = false → ext.isRtp data = true →
      onPacketReceived ext t src data =
        .dataReceived data.length :: onRtpDataReceived ext t src data) ∧
    (ext.isRtcp data = false → ext.isRtp data = false → ext.isSctp data = true →
      onPacketReceived ext t src data =
        .dataReceived data.length :: onSctpDataReceived t src data) ∧
    (ext.isRtcp data = false → ext.isRtp data = false → ext.isSctp data = false →
      onPacketReceived ext t src data =
        [.dataReceived data.length, .warn "ignoring received packet of unknown type"]) := by
  refine ⟨⟨_, rfl⟩, ?_, ?_, ?_, ?_⟩
  · intro h1
    simp [onPacketReceived, h1]
  · intro h1 h2
    simp [onPacketReceived, h1, h2]
  · intro h1 h2 h3
    simp [onPacketReceived, h1, h2, h3]
  · intro h1 h2 h3
    simp [onPacketReceived, h1, h2, h3]

/-- C5 witness: on an unclassifiable datagram only the byte count and the
diagnostic warning happen. -/
theorem on_packet_received_classification_witness :
    onPacketReceived extStd t0 srcOther [9, 9, 9] =
      [.dataReceived 3, .warn "ignoring received packet of unknown type"] :=
  (on_packet_received_classification extStd t0 srcOther [9, 9, 9]).2.2.2.2 rfl rfl rfl

/-- C6: on each of the three classified inbound paths, a datagram received
while connected whose source address differs from the configured remote
address is dropped after only a diagnostic log — it is never decrypted,
never parsed, never forwarded and changes no counters beyond the raw byte
count reported by the demultiplexer — and a datagram received while
disconnected is dropped silently on every path. -/
theorem inbound_anti_spoof (ext : Ext) (t : Transport) (src : SockAddr)
    (data : List Nat) :
    (∀ tu, t.tuple = some tu → tu.sameSource src = false →
      onRtpDataReceived ext t src data =
        [.debug "ignoring RTP packet from unknown IP:port"] ∧
      onRtcpDataReceived ext t src data =
        [.debug "ignoring RTCP packet from unknown IP:port"] ∧
      onSctpDataReceived t src data =
        [.debug "ignoring SCTP packet from unknown IP:port"]) ∧
    (t.tuple = none →
      onRtpDataReceived ext t src data = [] ∧
      onRtcpDataReceived ext t src data = [] ∧
      onSctpDataReceived t src data = []) ∧
    (∀ tu, t.tuple = some tu → tu.sameSource src = false →
        ext.isRtcp data = true →
      onPacketReceived ext t src data =
        [.dataReceived data.length, .debug "ignoring RTCP packet from unknown IP:port"]) ∧
    (∀ tu, t.tuple = some tu → tu.sameSource src = false →
        ext.isRtcp data = false → ext.isRtp data = true →
      onPacketReceived ext t src data =
        [.dataReceived data.length, .debug "ignoring RTP packet from unknown IP:port"]) ∧
    (∀ tu, t.tuple = some tu → tu.sameSource src = false →
        ext.isRtcp data = false → ext.isRtp data = false → ext.isSctp data = true →
      onPacketReceived ext t src data =
        [.dataReceived data.length, .debug "ignoring SCTP packet from unknown IP:port"]) := by
  refine ⟨?_, ?_, ?_, ?_, ?_⟩
  · intro tu htu hmm
    refine ⟨?_, ?_, ?_⟩ <;>
      simp [onRtpDataReceived, onRtcpDataReceived, onSctpDataReceived, htu, hmm]
  · intro htu
    refine ⟨?_, ?_, ?_⟩ <;>
      simp [onRtpDataReceived, onRtcpDataReceived, onSctpDataReceived, htu]
  · intro tu htu hmm h1
    simp [onPacketReceived, onRtcpDataReceived, htu, hmm, h1]
  · intro tu htu hmm h1 h2
    simp [onPacketReceived, onRtpDataReceived, htu, hmm, h1, h2]
  · intro tu htu hmm h1 h2 h3
    simp [onPacketReceived, onSctpDataReceived, htu, hmm, h1, h2, h3]

/-- C6 witness: on the connected `tConn`, a datagram from a foreign source
address is dropped with only the debug log on all three paths, and on the
unconnected `t0` it is dropped silently. -/
theorem inbound_anti_spoof_witness :
    (onRtpDataReceived extStd tConn srcOther [1, 2] =
      [.debug "ignoring RTP packet from unknown IP:port"] ∧
     onRtcpDataReceived extStd tConn srcOther [1, 2] =
      [.debug "ignoring RTCP packet from unknown IP:port"] ∧
     onSctpDataReceived tConn srcOther [1, 2] =
      [.debug "ignoring SCTP packet from unknown IP:port"]) ∧
    (onRtpDataReceived extStd t0 srcOther [1, 2] = [] ∧
     onRtcpDataReceived extStd t0 srcOther [1, 2] = [] ∧
     onSctpDataReceived t0 srcOther [1, 2] = []) :=
  ⟨(inbound_anti_spoof extStd tConn srcOther [1, 2]).1 tuStd rfl (by decide),
   (inbound_anti_spoof extStd t0 srcOther [1, 2]).2.1 rfl⟩

/-- C7: the three outbound operations share one policy. While disconnected,
send-RTP only fires its callback (when supplied) with `false`, and send-RTCP
(single and compound) and send-raw do nothing at all. While connected with
SRTP, an encryption failure likewise transmits nothing, changes no counter
and only reports failure through the callback; an encryption success hands
the rewritten buffer to the tuple and immediately increases the bytes-sent
counter by the transmitted (post-encryption) length. Without SRTP the raw
buffer is handed off and accounted with its own length. -/
theorem outbound_send_policy (ext : Ext) (t : Transport) (data d2 : List Nat)
    (hasCb : Bool) :
    (t.tuple = none →
      sendRtpPacket ext t data true = [.sendCallback false] ∧
      sendRtpPacket ext t data false = [] ∧
      sendRtcpPacket ext t data = [] ∧
      sendRtcpCompoundPacket ext t data = [] ∧
      sendSctpData t data = []) ∧
    (t.tuple.isSome = true → t.hasSrtp = true → ext.encryptRtp data = none →
      sendRtpPacket ext t data true = [.encryptRtp data, .sendCallback false] ∧
      sendRtpPacket ext t data false = [.encryptRtp data]) ∧
    (t.tuple.isSome = true → t.hasSrtp = true → ext.encryptRtcp data = none →
      sendRtcpPacket ext t data = [.encryptRtcp data] ∧
      sendRtcpCompoundPacket ext t data = [.encryptRtcp data]) ∧
    (t.tuple.isSome = true → t.hasSrtp = true → ext.encryptRtp data = some d2 →
      sendRtpPacket ext t data hasCb =
        [.encryptRtp data, .tupleSend d2, .dataSent d2.length]) ∧
    (t.tuple.isSome = true → t.hasSrtp = true → ext.encryptRtcp data = some d2 →
      sendRtcpPacket ext t data =
        [.encryptRtcp data, .tupleSend d2, .dataSent d2.length] ∧
      sendRtcpCompoundPacket ext t data =
        [.encryptRtcp data, .tupleSend d2, .dataSent d2.length]) ∧
    (t.tuple.isSome = true → t.hasSrtp = false →
      sendRtpPacket ext t data hasCb = [.tupleSend data, .dataSent data.length] ∧
      sendRtcpPacket ext t data = [.tupleSend data, .dataSent data.length] ∧
      sendSctpData t data = [.tupleSend data, .dataSent data.length]) := by
  refine ⟨?_, ?_, ?_, ?_, ?_, ?_⟩
  · intro h
    refine ⟨?_, ?_, ?_, ?_, ?_⟩ <;>
      simp [sendRtpPacket, sendRtcpPacket, sendRtcpCompoundPacket, sendSctpData,
        Transport.isConnected, h]
  · intro h1 h2 h3
    refine ⟨?_, ?_⟩ <;> simp [sendRtpPacket, Transport.isConnected, h1, h2, h3]
  · intro h1 h2 h3
    refine ⟨?_, ?_⟩ <;>
      simp [sendRtcpPacket, sendRtcpCompoundPacket, Transport.isConnected, h1, h2, h3]
  · intro h1 h2 h3
    simp [sendRtpPacket, Transport.isConnected, h1, h2, h3]
  · intro h1 h2 h3
    refine ⟨?_, ?_⟩ <;>
      simp [sendRtcpPacket, sendRtcpCompoundPacket, Transport.isConnected, h1, h2, h3]
  · intro h1 h2
    refine ⟨?_, ?_, ?_⟩ <;>
      simp [sendRtpPacket, sendRtcpPacket, sendSctpData, Transport.isConnected, h1, h2]

/-- C7 witness: on the unconnected `t0`, send-RTP reports failure through its
callback and the other sends are silent no-ops. -/
theorem outbound_send_policy_witness :
    sendRtpPacket extStd t0 [1, 2] true = [.sendCallback false] ∧
    sendRtpPacket extStd t0 [1, 2] false = [] ∧
    sendRtcpPacket extStd t0 [1, 2] = [] ∧
    sendRtcpCompoundPacket extStd t0 [1, 2] = [] ∧
    sendSctpData t0 [1, 2] = [] :=
  (outbound_send_policy extStd t0 [1, 2] [1, 2] true).1 rfl

/-- C8: SCTP data is never encrypted or decrypted, SRTP or not: the outbound
raw send hands the buffer to the tuple unchanged (the function does not even
consult the oracle bundle, hence no session), and an inbound SCTP datagram
passing the anti-spoof check is forwarded upstream as the raw buffer
unchanged. -/
theorem sctp_never_encrypted (t : Transport) (src : SockAddr) (data : List Nat) :
    (t.tuple.isSome = true →
      sendSctpData t data = [.tupleSend data, .dataSent data.length]) ∧
    (∀ tu, t.tuple = some tu → tu.sameSource src = true →
      onSctpDataReceived t src data = [.recvSctp data]) := by
  refine ⟨?_, ?_⟩
  · intro h
    simp [sendSctpData, Transport.isConnected, h]
  · intro tu htu hmm
    simp [onSctpDataReceived, htu, hmm]

/-- C8 witness: on the connected, SRTP-enabled `tConn`, outbound SCTP is the
raw hand-off plus accounting, and an inbound SCTP datagram from the
configured remote address is forwarded as the raw buffer. -/
theorem sctp_never_encrypted_witness :
    sendSctpData tConn [7, 8] = [.tupleSend [7, 8], .dataSent 2] ∧
    onSctpDataReceived tConn { ip := "127.0.0.1", port := 0 } [7, 8] =
      [.recvSctp [7, 8]] :=
  ⟨(sctp_never_encrypted tConn srcOther [7, 8]).1 rfl,
   (sctp_never_encrypted tConn { ip := "127.0.0.1", port := 0 } [7, 8]).2
     tuStd rfl (by decide)⟩

/-! Helper lemmas shared by the remaining claims. -/

/-- The catch-block rollback is the identity on a state whose three at-most
once slots are all empty. -/
theorem rollback_eq_self (t : Transport) (hs : t.srtpSendSession = none)
    (hr : t.srtpRecvSession = none) (ht : t.tuple = none) : rollback t = t := by
  cases t
  simp_all [rollback]

/-- A successful connect body either leaves both session slots untouched
(SRTP disabled) or fills both of them. -/
theorem connectTry_ok_state (ext : Ext) (t : Transport) (req : ConnectData)
    (t2 : Transport) (d : TupleDesc) (h : connectTry ext t req = .ok t2 d) :
    (t2.srtpSendSession = t.srtpSendSession ∧
     t2.srtpRecvSession = t.srtpRecvSession) ∨
    (t2.srtpSendSession.isSome = true ∧ t2.srtpRecvSession.isSome = true) := by
  unfold connectTry at h
  repeat' split at h
  all_goals simp_all
  all_goals simp [← h.1]

/-- The srtpKey validation step throws a TypeError exactly on a mismatch
against the local protection state: SRTP enabled with an absent or non-string
key, SRTP disabled with any key present, or a supplied key string whose
length is not 30. -/
theorem setupSrtp_typeError_iff (ext : Ext) (t : Transport) (k : Option JPrim) :
    (∃ m, setupSrtpSessions ext t k = .error (.typeError m)) ↔
      ((t.hasSrtp = true ∧ ∀ s, k ≠ some (.jstr s)) ∨
       (t.hasSrtp = false ∧ k.isSome = true) ∨
       (∃ s, k = some (.jstr s) ∧ s.length ≠ srtpMasterLength)) := by
  cases htS : t.hasSrtp
  · cases k with
    | none => simp [setupSrtpSessions, htS]
    | some v => simp [setupSrtpSessions, htS]
  · cases k with
    | none =>
      simp only [setupSrtpSessions, htS]
      simp
    | some v =>
      cases v with
      | jstr s =>
        by_cases hl : s.length = srtpMasterLength
        · constructor
          · rintro ⟨m, hm⟩
            simp only [setupSrtpSessions, htS, hl] at hm
            simp only [Bool.not_true, Bool.false_and, Bool.false_eq_true,
              if_false, ne_eq, not_true_eq_false] at hm
            cases h1 : ext.srtpNewFail .outbound t.srtpKey <;> rw [h1] at hm
            · cases h2 : ext.srtpNewFail .inbound s <;> rw [h2] at hm <;>
                simp_all
            · simp_all
          · rintro (⟨_, hall⟩ | ⟨hf, _⟩ | ⟨s2, hs2, hlen⟩)
            · exact absurd rfl (hall s)
            · exact absurd hf (by simp)
            · rw [Option.some.injEq, JPrim.jstr.injEq] at hs2
              exact absurd (hs2 ▸ hl) hlen
        · simp [setupSrtpSessions, htS, hl]
      | jbool b => simp [setupSrtpSessions, htS]
      | jint n => simp [setupSrtpSessions, htS]
      | jother => simp [setupSrtpSessions, htS]

/-- Every error thrown by the srtpKey/session step is a TypeError or one of
the two SRTP-session construction errors. -/
theorem setupSrtp_error_shape (ext : Ext) (t : Transport) (k : Option JPrim)
    (e : MsError) (h : setupSrtpSessions ext t k = .error e) :
    (∃ m, e = .typeError m) ∨
    (∃ m, e = .error ("error creating SRTP sending session: " ++ m)) ∨
    (∃ m, e = .error ("error creating SRTP receiving session: " ++ m)) := by
  unfold setupSrtpSessions at h
  repeat' split at h
  all_goals first
    | exact Except.noConfusion h
    | (injection h with h2; subst h2;
       first
        | exact Or.inl ⟨_, rfl⟩
        | exact Or.inr (Or.inl ⟨_, rfl⟩)
        | exact Or.inr (Or.inr ⟨_, rfl⟩))

/-- With an address family of IPv4 or IPv6 the resolution switch never takes
its recoverable `default:` branch. -/
theorem resolve_not_invalid (ext : Ext) (ip : String) (port : Nat)
    (h : ext.getFamily ip = .inet ∨ ext.getFamily ip = .inet6) :
    ∀ m, resolveRemoteAddr ext ip port ≠ .invalid m := by
  intro m hm
  unfold resolveRemoteAddr at hm
  rcases h with h | h
  · rw [h] at hm
    cases huv : ext.uvIp4Addr ip port <;> rw [huv] at hm <;> simp_all
  · rw [h] at hm
    cases huv : ext.uvIp6Addr ip port <;> rw [huv] at hm <;> simp_all

/-- Under the normalization contract (a normalized ip is IPv4 or IPv6), every
recoverable error of the connect body is a TypeError or an SRTP session
construction error; none comes from the address-resolution stage. -/
theorem connectTry_err_shape (ext : Ext)
    (hfam : ∀ s ip, ext.normalizeIp s = some ip →
      ext.getFamily ip = .inet ∨ ext.getFamily ip = .inet6)
    (t : Transport) (req : ConnectData) (e : MsError)
    (h : connectTry ext t req = .err e) :
    (∃ m, e = .typeError m) ∨
    (∃ m, e = .error ("error creating SRTP sending session: " ++ m)) ∨
    (∃ m, e = .error ("error creating SRTP receiving session: " ++ m)) := by
  unfold connectTry at h
  cases hip : req.ip with
  | none =>
    simp only [hip] at h
    injection h with h2
    exact Or.inl ⟨_, h2.symm⟩
  | some v =>
    cases v with
    | jstr ipRaw =>
      simp only [hip] at h
      cases hn : ext.normalizeIp ipRaw with
      | none =>
        simp only [hn] at h
        injection h with h2
        exact Or.inl ⟨_, h2.symm⟩
      | some ip =>
        simp only [hn] at h
        cases hp : req.port with
        | none =>
          simp only [hp] at h
          injection h with h2
          exact Or.inl ⟨_, h2.symm⟩
        | some p =>
          simp only [hp] at h
          split at h
          · injection h with h2
            exact Or.inl ⟨_, h2.symm⟩
          · cases hs2 : setupSrtpSessions ext t req.srtpKey with
            | error e2 =>
              simp only [hs2] at h
              injection h with h2
              exact h2 ▸ setupSrtp_error_shape ext t req.srtpKey e2 hs2
            | ok pairOpt =>
              simp only [hs2] at h
              cases hr2 : resolveRemoteAddr ext ip 0 with
              | ok addr =>
                simp only [hr2] at h
                exact TryResult.noConfusion h
              | invalid m2 =>
                exact absurd hr2 (resolve_not_invalid ext ip 0 (hfam ipRaw ip hn) m2)
              | fatal m2 =>
                simp only [hr2] at h
                exact TryResult.noConfusion h
    | jbool b =>
      simp only [hip] at h
      injection h with h2
      exact Or.inl ⟨_, h2.symm⟩
    | jint n =>
      simp only [hip] at h
      injection h with h2
      exact Or.inl ⟨_, h2.symm⟩
    | jother =>
      simp only [hip] at h
      injection h with h2
      exact Or.inl ⟨_, h2.symm⟩

/-- C2: connect is all-or-nothing. From an unconnected state with no
sessions, every recoverable failure returns the state exactly unchanged (any
sessions provisioned during the call are discarded, the binding stays
absent); every outcome leaves the two session slots both filled or both
empty; a later connect with valid parameters still succeeds from that state;
and construction starts with both session slots empty. -/
theorem connect_all_or_nothing (ext : Ext) (t : Transport) (req : ConnectData)
    (hs : t.srtpSendSession = none) (hr : t.srtpRecvSession = none)
    (ht : t.tuple = none) :
    (∀ e t2, connect ext t req = .err e t2 → t2 = t) ∧
    (∀ t2 d, connect ext t req = .ok t2 d →
      (t2.srtpSendSession.isSome = true ∧ t2.srtpRecvSession.isSome = true) ∨
      (t2.srtpSendSession = none ∧ t2.srtpRecvSession = none)) ∧
    (∃ ext2 req2 t2 d, connect ext2 t req2 = .ok t2 d) ∧
    (∀ ext2 d t2, pipeTransportNew ext2 d = .ok t2 →
      t2.srtpSendSession = none ∧ t2.srtpRecvSession = none) := by
  have hroll : rollback t = t := rollback_eq_self t hs hr ht
  refine ⟨?_, ?_, ?_, ?_⟩
  · intro e t2 h
    simp only [connect, ht, Option.isSome_none, Bool.false_eq_true, if_false] at h
    cases hc : connectTry ext t req <;> rw [hc] at h
    · simp at h
    · rw [ConnectResult.err.injEq] at h
      rw [← h.2, hroll]
    · simp at h
  · intro t2 d h
    simp only [connect, ht, Option.isSome_none, Bool.false_eq_true, if_false] at h
    cases hc : connectTry ext t req <;> rw [hc] at h
    · rw [ConnectResult.ok.injEq] at h
      rcases connectTry_ok_state ext t req _ _ hc with ⟨h1, h2⟩ | ⟨h1, h2⟩
      · right
        rw [← h.1]
        exact ⟨h1.trans hs, h2.trans hr⟩
      · left
        rw [← h.1]
        exact ⟨h1, h2⟩
    · simp at h
    · simp at h
  · have hkx : keyX.length = srtpMasterLength := by decide
    cases htS : t.hasSrtp
    · refine ⟨extStd,
        ⟨some (.jstr "127.0.0.1"), some (.jint 5004), none⟩,
        { t with tuple := some (stdTuple t) }, (stdTuple t).fillJson, ?_⟩
      unfold connect connectTry setupSrtpSessions resolveRemoteAddr
      rw [ht]
      simp [extStd, htS, stdTuple, isPositiveInteger]
    · refine ⟨extStd,
        ⟨some (.jstr "127.0.0.1"), some (.jint 5004), some (.jstr keyX)⟩,
        { t with tuple := some (stdTuple t),
                 srtpSendSession := some ⟨.outbound, t.srtpKey⟩,
                 srtpRecvSession := some ⟨.inbound, keyX⟩ },
        (stdTuple t).fillJson, ?_⟩
      unfold connect connectTry setupSrtpSessions resolveRemoteAddr
      rw [ht]
      simp [extStd, htS, stdTuple, isPositiveInteger, hkx]
  · intro ext2 d2 t2 h
    unfold pipeTransportNew at h
    repeat' split at h
    all_goals first
      | exact CtorResult.noConfusion h
      | (injection h with h2; rw [← h2]; exact ⟨rfl, rfl⟩)

/-- C2 witness: the spec scenario's failed connect (srtpKey of length 16)
throws the ValidationError and leaves the fresh transport `t0` exactly as it
was. -/
theorem connect_all_or_nothing_witness :
    connect extStd t0
      { ip := some (.jstr "127.0.0.1"), port := some (.jint 5004),
        srtpKey := some (.jstr "0123456789012345") } =
      .err (.typeError "invalid srtpKey length") t0 := by
  have h := (connect_all_or_nothing extStd t0
    { ip := some (.jstr "127.0.0.1"), port := some (.jint 5004),
      srtpKey := some (.jstr "0123456789012345") } rfl rfl rfl).1
  have hc : connect extStd t0
      { ip := some (.jstr "127.0.0.1"), port := some (.jint 5004),
        srtpKey := some (.jstr "0123456789012345") } =
      .err (.typeError "invalid srtpKey length") (rollback t0) := by decide
  rw [hc, h _ _ hc]

/-- C4: with a valid `ip` and `port`, connect throws a ValidationError
(TypeError) exactly when the `srtpKey` field mismatches the local protection
state: protection enabled and the key absent or not a string, protection
disabled and the key present, or a supplied key string whose length is not
exactly 30 bytes. -/
theorem connect_srtpkey_validation (ext : Ext) (t : Transport)
    (req : ConnectData) (ipRaw ip : String) (p : JPrim)
    (ht : t.tuple = none)
    (hip : req.ip = some (.jstr ipRaw))
    (hn : ext.normalizeIp ipRaw = some ip)
    (hp : req.port = some p)
    (hpos : isPositiveInteger p = true) :
    (∃ m t2, connect ext t req = .err (.typeError m) t2) ↔
      ((t.hasSrtp = true ∧ ∀ s, req.srtpKey ≠ some (.jstr s)) ∨
       (t.hasSrtp = false ∧ req.srtpKey.isSome = true) ∨
       (∃ s, req.srtpKey = some (.jstr s) ∧ s.length ≠ srtpMasterLength)) := by
  constructor
  · rintro ⟨m, t2, hm⟩
    simp only [connect, ht, Option.isSome_none, Bool.false_eq_true, if_false] at hm
    cases hc : connectTry ext t req <;> rw [hc] at hm
    · simp at hm
    · rw [ConnectResult.err.injEq] at hm
      unfold connectTry at hc
      simp only [hip, hn, hp] at hc
      split at hc
      · rename_i hcond
        rw [hpos] at hcond
        exact absurd hcond (by decide)
      · cases hs2 : setupSrtpSessions ext t req.srtpKey with
        | error e2 =>
          simp only [hs2] at hc
          injection hc with h4
          rw [h4, hm.1] at hs2
          exact (setupSrtp_typeError_iff ext t req.srtpKey).mp ⟨m, hs2⟩
        | ok pairOpt =>
          simp only [hs2] at hc
          cases hr2 : resolveRemoteAddr ext ip 0 with
          | ok addr =>
            simp only [hr2] at hc
            exact TryResult.noConfusion hc
          | invalid m2 =>
            simp only [hr2] at hc
            injection hc with h4
            exact MsError.noConfusion (h4.trans hm.1)
          | fatal m2 =>
            simp only [hr2] at hc
            exact TryResult.noConfusion hc
    · simp at hm
  · intro hcond
    obtain ⟨m, hm⟩ := (setupSrtp_typeError_iff ext t req.srtpKey).mpr hcond
    refine ⟨m, rollback t, ?_⟩
    simp only [connect, ht, Option.isSome_none, Bool.false_eq_true, if_false,
      connectTry, hip, hn, hp, hpos, Bool.not_true, Bool.false_eq_true,
      if_false, hm]

/-- C4 witness: on the SRTP-enabled `t0`, a connect without any `srtpKey`
throws a ValidationError. -/
theorem connect_srtpkey_validation_witness :
    ∃ m t2, connect extStd t0
      { ip := some (.jstr "127.0.0.1"), port := some (.jint 5004),
        srtpKey := none } = .err (.typeError m) t2 :=
  (connect_srtpkey_validation extStd t0
      { ip := some (.jstr "127.0.0.1"), port := some (.jint 5004),
        srtpKey := none }
      "127.0.0.1" "127.0.0.1" (.jint 5004) rfl rfl rfl rfl (by decide)).mpr
    (Or.inl ⟨by decide, fun s h => Option.noConfusion h⟩)

/-- C9: under the normalization contract (an ip that passed normalization has
family IPv4 or IPv6), address resolution during connect can never fail
recoverably: every catchable connect error is the repeat-call StateError, a
validation TypeError or an SRTP session construction error, and a libuv
resolver failure at the resolution stage is a process-fatal abort. -/
theorem connect_resolution_not_recoverable (ext : Ext)
    (hfam : ∀ s ip, ext.normalizeIp s = some ip →
      ext.getFamily ip = .inet ∨ ext.getFamily ip = .inet6) :
    (∀ t req e t2, connect ext t req = .err e t2 →
      e = .error "connect() already called" ∨
      (∃ m, e = .typeError m) ∨
      (∃ m, e = .error ("error creating SRTP sending session: " ++ m)) ∨
      (∃ m, e = .error ("error creating SRTP receiving session: " ++ m))) ∧
    (∀ ip port, ext.getFamily ip = .inet → ext.uvIp4Addr ip port = none →
      resolveRemoteAddr ext ip port = .fatal "uv_ip4_addr() failed") ∧
    (∀ ip port, ext.getFamily ip = .inet6 → ext.uvIp6Addr ip port = none →
      resolveRemoteAddr ext ip port = .fatal "uv_ip6_addr() failed") := by
  refine ⟨?_, ?_, ?_⟩
  · intro t req e t2 h
    unfold connect at h
    split at h
    · rw [ConnectResult.err.injEq] at h
      exact Or.inl h.1.symm
    · cases hc : connectTry ext t req <;> rw [hc] at h
      · simp at h
      · rw [ConnectResult.err.injEq] at h
        exact Or.inr (h.1 ▸ connectTry_err_shape ext hfam t req _ hc)
      · simp at h
  · intro ip port h1 h2
    unfold resolveRemoteAddr
    rw [h1, h2]
  · intro ip port h1 h2
    unfold resolveRemoteAddr
    rw [h1, h2]

/-- C9 witness: with a failing IPv4 resolver, resolution is the process-fatal
abort. -/
theorem connect_resolution_not_recoverable_witness :
    resolveRemoteAddr extUvFail "127.0.0.1" 0 = .fatal "uv_ip4_addr() failed" :=
  (connect_resolution_not_recoverable extUvFail
      (fun _ _ _ => Or.inl rfl)).2.1 "127.0.0.1" 0 rfl rfl

/-- C10: a present but non-boolean `enableRtx` or `enableSrtp` is silently
ignored by the constructor — no error is raised, the rtx flag keeps its
default `false`, and a non-boolean `enableSrtp` leaves protection disabled
with no local key generated. -/
theorem ctor_nonbool_options_ignored (ext : Ext) (d : ConstructData)
    (o : ListenIpObj) (ipRaw ip lip : String) (lport : Nat) (v w : JPrim)
    (hli : d.listenIp = some (.jobj o))
    (hio : o.ip = some (.jstr ipRaw))
    (hn : ext.normalizeIp ipRaw = some ip)
    (han : o.announcedIp = none)
    (hrtx : d.enableRtx = some v) (hv : ∀ b, v ≠ .jbool b)
    (hsrtp : d.enableSrtp = some w) (hw : ∀ b, w ≠ .jbool b)
    (hbind : ext.bindSocket ip = some (lip, lport)) :
    pipeTransportNew ext d =
      .ok { listenIpIp := ip, announcedIp := "", socketLocalIp := lip,
            socketLocalPort := lport, rtx := false, srtpKey := "",
            tuple := none, srtpSendSession := none, srtpRecvSession := none } ∧
    (∀ t2, pipeTransportNew ext d = .ok t2 →
      t2.hasSrtp = false ∧ t2.rtx = false) := by
  have h1 : rtxOf d.enableRtx = false := by
    rw [hrtx]
    cases v with
    | jstr s => rfl
    | jbool b => exact absurd rfl (hv b)
    | jint n => rfl
    | jother => rfl
  have h2 : srtpKeyOf ext d.enableSrtp = "" := by
    rw [hsrtp]
    cases w with
    | jstr s => rfl
    | jbool b =>
      cases b <;> first | rfl | exact absurd rfl (hw _)
    | jint n => rfl
    | jother => rfl
  have h0 : pipeTransportNew ext d =
      .ok { listenIpIp := ip, announcedIp := "", socketLocalIp := lip,
            socketLocalPort := lport, rtx := false, srtpKey := "",
            tuple := none, srtpSendSession := none, srtpRecvSession := none } := by
    simp [pipeTransportNew, hli, hio, hn, han, pickAnnounced, h1, h2, hbind]
  refine ⟨h0, ?_⟩
  intro t2 h
  rw [h0] at h
  injection h with h3
  rw [← h3]
  exact ⟨rfl, rfl⟩

/-- C10 witness: a string `enableRtx` and an integer `enableSrtp` are both
ignored: construction succeeds with rtx `false` and no SRTP key. -/
theorem ctor_nonbool_options_ignored_witness :
    pipeTransportNew extStd
      { listenIp := some (.jobj { ip := some (.jstr "127.0.0.1"),
                                  announcedIp := none }),
        enableRtx := some (.jstr "yes"),
        enableSrtp := some (.jint 1) } =
      .ok { listenIpIp := "127.0.0.1", announcedIp := "",
            socketLocalIp := "127.0.0.1", socketLocalPort := 40000,
            rtx := false, srtpKey := "", tuple := none,
            srtpSendSession := none, srtpRecvSession := none } :=
  (ctor_nonbool_options_ignored extStd
      { listenIp := some (.jobj { ip := some (.jstr "127.0.0.1"),
                                  announcedIp := none }),
        enableRtx := some (.jstr "yes"),
        enableSrtp := some (.jint 1) }
      { ip := some (.jstr "127.0.0.1"), announcedIp := none }
      "127.0.0.1" "127.0.0.1" "127.0.0.1" 40000 (.jstr "yes") (.jint 1)
      rfl rfl rfl rfl rfl (fun b h => JPrim.noConfusion h)
      rfl (fun b h => JPrim.noConfusion h) rfl).1

end RTCPipe
